import Mathlib

/-! # Consumer Controls usage page driver (`hcons.c`)

A shallow embedding of the mapping table `hcons_map` and of the callback
`hcons_rel_volume_cb`, which emulates the relative Consumer volume usage by
pressing the VOLUMEUP and VOLUMEDOWN keys, together with the properties of
both.

Machine integers are mathematical integers with explicit 32-bit wrap-around.
The evdev device is a record of the capability sets it has been told about and
of the events pushed to it, oldest first.
-/

namespace Hcons

/-! ## Constants of the system headers -/

/-- Event type of key events (`input-event-codes.h`). -/
def EV_KEY : Nat := 0x01
/-- Event type of relative axes (`input-event-codes.h`). -/
def EV_REL : Nat := 0x02
/-- Event type of absolute axes (`input-event-codes.h`). -/
def EV_ABS : Nat := 0x03
/-- Errno "No message of desired type" (`sys/errno.h`). -/
def ENOMSG : Int := 83
/-- Consumer usage page number (`hid.h`, HID Usage Tables). -/
def HUP_CONSUMER : Nat := 0x000c

def KEY_VOLUMEDOWN : Nat := 114
def KEY_VOLUMEUP : Nat := 115
def ABS_VOLUME : Nat := 0x20
def REL_HWHEEL : Nat := 0x06
def BTN_MISC : Nat := 0x100

/-! Codes the driver defines itself when the headers lack them. -/

def KEY_FULL_SCREEN : Nat := 0x174
def KEY_ASPECT_RATIO : Nat := 0x177
def KEY_KBD_LAYOUT_NEXT : Nat := 0x248

/-! Remaining key codes of `input-event-codes.h` used by the table. -/

def KEY_ADDRESSBOOK : Nat := 0x1ad
def KEY_APPSELECT : Nat := 0x244
def KEY_ASSISTANT : Nat := 0x247
def KEY_AUDIO : Nat := 0x188
def KEY_BACK : Nat := 158
def KEY_BASSBOOST : Nat := 209
def KEY_BLUE : Nat := 0x191
def KEY_BOOKMARKS : Nat := 156
def KEY_BRIGHTNESSDOWN : Nat := 224
def KEY_BRIGHTNESSUP : Nat := 225
def KEY_BRIGHTNESS_AUTO : Nat := 244
def KEY_BRIGHTNESS_MAX : Nat := 0x251
def KEY_BRIGHTNESS_MIN : Nat := 0x250
def KEY_BRIGHTNESS_TOGGLE : Nat := 0x1af
def KEY_BUTTONCONFIG : Nat := 0x240
def KEY_CALC : Nat := 140
def KEY_CALENDAR : Nat := 0x18d
def KEY_CAMERA : Nat := 212
def KEY_CANCEL : Nat := 223
def KEY_CD : Nat := 0x17f
def KEY_CHANNELDOWN : Nat := 0x193
def KEY_CHANNELUP : Nat := 0x192
def KEY_CHAT : Nat := 216
def KEY_CLOSE : Nat := 206
def KEY_COFFEE : Nat := 152
def KEY_CONFIG : Nat := 171
def KEY_CONTROLPANEL : Nat := 0x243
def KEY_COPY : Nat := 133
def KEY_CUT : Nat := 137
def KEY_DATABASE : Nat := 0x1aa
def KEY_DELETE : Nat := 111
def KEY_DOCUMENTS : Nat := 235
def KEY_DOWN : Nat := 108
def KEY_DVD : Nat := 0x185
def KEY_EDIT : Nat := 176
def KEY_EDITOR : Nat := 0x1a6
def KEY_EJECTCD : Nat := 161
def KEY_ENTER : Nat := 28
def KEY_ESC : Nat := 1
def KEY_EXIT : Nat := 174
def KEY_FASTFORWARD : Nat := 208
def KEY_FILE : Nat := 144
def KEY_FINANCE : Nat := 219
def KEY_FIND : Nat := 136
def KEY_FORWARD : Nat := 159
def KEY_FORWARDMAIL : Nat := 233
def KEY_GAMES : Nat := 0x1a1
def KEY_GOTO : Nat := 0x162
def KEY_GRAPHICSEDITOR : Nat := 0x1a8
def KEY_GREEN : Nat := 0x18f
def KEY_HELP : Nat := 138
def KEY_HOMEPAGE : Nat := 172
def KEY_IMAGES : Nat := 0x1ba
def KEY_INFO : Nat := 0x166
def KEY_INSERT : Nat := 110
def KEY_JOURNAL : Nat := 0x242
def KEY_KBDILLUMDOWN : Nat := 229
def KEY_KBDILLUMTOGGLE : Nat := 228
def KEY_KBDILLUMUP : Nat := 230
def KEY_KBDINPUTASSIST_ACCEPT : Nat := 0x264
def KEY_KBDINPUTASSIST_CANCEL : Nat := 0x265
def KEY_KBDINPUTASSIST_NEXT : Nat := 0x261
def KEY_KBDINPUTASSIST_NEXTGROUP : Nat := 0x263
def KEY_KBDINPUTASSIST_PREV : Nat := 0x260
def KEY_KBDINPUTASSIST_PREVGROUP : Nat := 0x262
def KEY_KEYBOARD : Nat := 0x176
def KEY_KPMINUS : Nat := 74
def KEY_KPPLUS : Nat := 78
def KEY_LAST : Nat := 0x195
def KEY_LEFT : Nat := 105
def KEY_LOGOFF : Nat := 0x1b1
def KEY_MAIL : Nat := 155
def KEY_MEDIA_REPEAT : Nat := 0x1b7
def KEY_MEMO : Nat := 0x18c
def KEY_MENU : Nat := 139
def KEY_MESSENGER : Nat := 0x1ae
def KEY_MUTE : Nat := 113
def KEY_NEW : Nat := 181
def KEY_NEWS : Nat := 0x1ab
def KEY_NEXT : Nat := 0x197
def KEY_NEXTSONG : Nat := 163
def KEY_OPEN : Nat := 134
def KEY_PASTE : Nat := 135
def KEY_PAUSE : Nat := 119
def KEY_PC : Nat := 0x178
def KEY_PHONE : Nat := 169
def KEY_PLAY : Nat := 207
def KEY_PLAYER : Nat := 0x183
def KEY_PLAYPAUSE : Nat := 164
def KEY_POWER : Nat := 116
def KEY_PRESENTATION : Nat := 0x1a9
def KEY_PREVIOUS : Nat := 0x19c
def KEY_PREVIOUSSONG : Nat := 165
def KEY_PRINT : Nat := 210
def KEY_PROGRAM : Nat := 0x16a
def KEY_PROPS : Nat := 130
def KEY_PVR : Nat := 0x16e
def KEY_RECORD : Nat := 167
def KEY_RED : Nat := 0x18e
def KEY_REDO : Nat := 182
def KEY_REFRESH : Nat := 173
def KEY_REPLY : Nat := 232
def KEY_RESTART : Nat := 0x198
def KEY_REWIND : Nat := 168
def KEY_RIGHT : Nat := 106
def KEY_SAT : Nat := 0x17d
def KEY_SAVE : Nat := 234
def KEY_SCALE : Nat := 120
def KEY_SCREENSAVER : Nat := 0x245
def KEY_SCROLLDOWN : Nat := 178
def KEY_SCROLLUP : Nat := 177
def KEY_SEARCH : Nat := 217
def KEY_SELECT : Nat := 0x161
def KEY_SEND : Nat := 231
def KEY_SHUFFLE : Nat := 0x19a
def KEY_SLEEP : Nat := 142
def KEY_SLOW : Nat := 0x199
def KEY_SPELLCHECK : Nat := 0x1b0
def KEY_SPREADSHEET : Nat := 0x1a7
def KEY_STOP : Nat := 128
def KEY_STOPCD : Nat := 166
def KEY_SUBTITLE : Nat := 0x172
def KEY_TAPE : Nat := 0x180
def KEY_TASKMANAGER : Nat := 0x241
def KEY_TUNER : Nat := 0x182
def KEY_TV : Nat := 0x179
def KEY_TV2 : Nat := 0x17a
def KEY_UNDO : Nat := 131
def KEY_UP : Nat := 103
def KEY_VCR : Nat := 0x17b
def KEY_VCR2 : Nat := 0x17c
def KEY_VIDEO : Nat := 0x189
def KEY_VIDEOPHONE : Nat := 0x1a0
def KEY_VIDEO_NEXT : Nat := 241
def KEY_VOICECOMMAND : Nat := 0x246
def KEY_VOICEMAIL : Nat := 0x1ac
def KEY_WORDPROCESSOR : Nat := 0x1a5
def KEY_WWW : Nat := 150
def KEY_YELLOW : Nat := 0x190
def KEY_ZOOMIN : Nat := 0x1a2
def KEY_ZOOMOUT : Nat := 0x1a3
def KEY_ZOOMRESET : Nat := 0x1a4

/-! ## Machine integers -/

/-- Conversion of an integer to `int32_t`: reduction modulo `2^32` into the
range `[-2^31, 2^31)`. -/
def int32_t (x : Int) : Int := (x + 2147483648) % 4294967296 - 2147483648

/-- The kernel's `abs` on `int`, `a < 0 ? -a : a`, with the negation wrapping
in 32 bits. -/
def abs (a : Int) : Int := int32_t (if a < 0 then -a else a)

/-! ## The evdev device -/

/-- One event handed to the evdev device: event type, event code and value. -/
structure input_event where
  type : Nat
  code : Nat
  value : Int
deriving DecidableEq, Repr

/-- The part of `struct evdev_dev` the driver acts on: the supported event
types and the supported key, relative-axis and absolute-axis codes, and the
events pushed so far in the order they were pushed. -/
structure evdev_dev where
  ev_type_flags : Finset Nat
  ev_key_flags : Finset Nat
  ev_rel_flags : Finset Nat
  ev_abs_flags : Finset Nat
  events : List input_event
deriving DecidableEq

/-- An evdev device that supports nothing and has received nothing. -/
def evdev_alloc : evdev_dev :=
  { ev_type_flags := ∅, ev_key_flags := ∅, ev_rel_flags := ∅, ev_abs_flags := ∅,
    events := [] }

/-- `evdev_support_event(evdev, type)`: mark an event type as supported. -/
def evdev_support_event (evdev : evdev_dev) (type : Nat) : evdev_dev :=
  { evdev with ev_type_flags := insert type evdev.ev_type_flags }

/-- `evdev_support_key(evdev, code)`: mark a key code as supported. -/
def evdev_support_key (evdev : evdev_dev) (code : Nat) : evdev_dev :=
  { evdev with ev_key_flags := insert code evdev.ev_key_flags }

/-- `evdev_push_event(evdev, type, code, value)`: hand one event to the
device. -/
def evdev_push_event (evdev : evdev_dev) (type code : Nat) (value : Int) : evdev_dev :=
  { evdev with events := evdev.events ++ [{ type := type, code := code, value := value }] }

/-- `evdev_push_key(evdev, code, value)`: hand one key event to the device. -/
def evdev_push_key (evdev : evdev_dev) (code : Nat) (value : Int) : evdev_dev :=
  evdev_push_event evdev EV_KEY code value

/-! ## The callback -/

/-- Modelled from the spec: the lifecycle phase a callback is invoked in
(`HMAP_CB_GET_STATE()` of `hmap.h`, which is not among the sources). The
`switch` of `hcons_rel_volume_cb` names the attaching and the running phase
and has no `default` label; `HMAP_CB_IS_OTHER` stands for every value the
`switch` does not name. -/
inductive hmap_cb_state where
  | HMAP_CB_IS_ATTACHING
  | HMAP_CB_IS_RUNNING
  | HMAP_CB_IS_OTHER
deriving DecidableEq, Repr

open hmap_cb_state

/-- Modelled from the spec: the type of a translation callback (`hmap_cb_t` of
`hmap.h`, which is not among the sources). A callback receives the phase, the
evdev device and the raw value `ctx`, and yields its `int` status and the
evdev device as it leaves it. -/
abbrev hmap_cb_t : Type := hmap_cb_state → evdev_dev → Int → Int × evdev_dev

/-- The loop `for (nrepeats = ...; nrepeats > 0; nrepeats--)` of
`hcons_rel_volume_cb`, by recursion on the number of iterations left: each
iteration pushes a press and then a release of `code`. -/
def hcons_rel_volume_for (code : Nat) : Nat → evdev_dev → evdev_dev
  | 0, evdev => evdev
  | n + 1, evdev =>
    hcons_rel_volume_for code n (evdev_push_key (evdev_push_key evdev code 1) code 0)

/-- Emulate relative Consumer volume usage with pressing VOLUMEUP and
VOLUMEDOWN keys appropriate number of times. The counter `nrepeats` starts at
`abs(data)` and the loop runs while it is positive, that is
`(abs data).toNat` times. -/
def hcons_rel_volume_cb : hmap_cb_t := fun state evdev ctx =>
  match state with
  | HMAP_CB_IS_ATTACHING =>
    let evdev := evdev_support_event evdev EV_KEY
    let evdev := evdev_support_key evdev KEY_VOLUMEUP
    let evdev := evdev_support_key evdev KEY_VOLUMEDOWN
    (0, evdev)
  | HMAP_CB_IS_RUNNING =>
    let data := int32_t ctx
    -- Nothing to report.
    if data = 0 then (ENOMSG, evdev)
    else
      let code := if data > 0 then KEY_VOLUMEUP else KEY_VOLUMEDOWN
      let nrepeats := abs data
      (0, hcons_rel_volume_for code nrepeats.toNat evdev)
  | HMAP_CB_IS_OTHER => (0, evdev)

/-! ## The mapping table -/

/-- Modelled from the spec: the kinds of a mapping rule (`struct hmap_item`
and the `HMAP_*` initialisers live in `hmap.h`, which is not among the
sources). -/
inductive hmap_kind where
  | KEY
  | ABSOLUTE
  | RELATIVE
  | CALLBACK
deriving DecidableEq, Repr

/-- Modelled from the spec: what a mapping rule does with its usage, a tagged
variant with the target event code for the direct kinds and the callback
reference, possibly null, for a callback rule. The callback variant is the one
built by `HMAP_REL_CB`, a callback for the usage reported as a relative
item. -/
inductive hmap_rule where
  | Key (code : Nat)
  | Absolute (code : Nat)
  | Relative (code : Nat)
  | RelCallback (cb : Option hmap_cb_t)

/-- The kind of a rule. -/
def hmap_rule.kind : hmap_rule → hmap_kind
  | .Key _ => .KEY
  | .Absolute _ => .ABSOLUTE
  | .Relative _ => .RELATIVE
  | .RelCallback _ => .CALLBACK

/-- Modelled from the spec: a mapping rule (`struct hmap_item` of `hmap.h`,
which is not among the sources): the usage page, the usage within the page and
the rule. -/
structure hmap_item where
  page : Nat
  usage : Nat
  rule : hmap_rule

/-- The kind of a table entry. -/
def hmap_item.kind (item : hmap_item) : hmap_kind := item.rule.kind

/-- Modelled from the spec: `HMAP_KEY(page, usage, code)` of `hmap.h`. -/
def HMAP_KEY (page usage code : Nat) : hmap_item :=
  { page := page, usage := usage, rule := .Key code }

/-- Modelled from the spec: `HMAP_ABS(page, usage, code)` of `hmap.h`. -/
def HMAP_ABS (page usage code : Nat) : hmap_item :=
  { page := page, usage := usage, rule := .Absolute code }

/-- Modelled from the spec: `HMAP_REL(page, usage, code)` of `hmap.h`. -/
def HMAP_REL (page usage code : Nat) : hmap_item :=
  { page := page, usage := usage, rule := .Relative code }

/-- Modelled from the spec: `HMAP_REL_CB(page, usage, &callback)` of
`hmap.h`. -/
def HMAP_REL_CB (page usage : Nat) (callback : Option hmap_cb_t) : hmap_item :=
  { page := page, usage := usage, rule := .RelCallback callback }

def HCONS_MAP_KEY (usage code : Nat) : hmap_item := HMAP_KEY HUP_CONSUMER usage code

def HCONS_MAP_ABS (usage code : Nat) : hmap_item := HMAP_ABS HUP_CONSUMER usage code

def HCONS_MAP_REL (usage code : Nat) : hmap_item := HMAP_REL HUP_CONSUMER usage code

def HCONS_MAP_REL_CB (usage : Nat) (callback : hmap_cb_t) : hmap_item :=
  HMAP_REL_CB HUP_CONSUMER usage (some callback)

/-- The table `hcons_map`, entry by entry in the order of the source. -/
def hcons_map : List hmap_item := [
  HCONS_MAP_KEY 0x030 KEY_POWER,
  HCONS_MAP_KEY 0x031 KEY_RESTART,
  HCONS_MAP_KEY 0x032 KEY_SLEEP,
  HCONS_MAP_KEY 0x034 KEY_SLEEP,
  HCONS_MAP_KEY 0x035 KEY_KBDILLUMTOGGLE,
  HCONS_MAP_KEY 0x036 BTN_MISC,
  HCONS_MAP_KEY 0x040 KEY_MENU, -- Menu
  HCONS_MAP_KEY 0x041 KEY_SELECT, -- Menu Pick
  HCONS_MAP_KEY 0x042 KEY_UP, -- Menu Up
  HCONS_MAP_KEY 0x043 KEY_DOWN, -- Menu Down
  HCONS_MAP_KEY 0x044 KEY_LEFT, -- Menu Left
  HCONS_MAP_KEY 0x045 KEY_RIGHT, -- Menu Right
  HCONS_MAP_KEY 0x046 KEY_ESC, -- Menu Escape
  HCONS_MAP_KEY 0x047 KEY_KPPLUS, -- Menu Value Increase
  HCONS_MAP_KEY 0x048 KEY_KPMINUS, -- Menu Value Decrease
  HCONS_MAP_KEY 0x060 KEY_INFO, -- Data On Screen
  HCONS_MAP_KEY 0x061 KEY_SUBTITLE, -- Closed Caption
  HCONS_MAP_KEY 0x063 KEY_VCR, -- VCR/TV
  HCONS_MAP_KEY 0x065 KEY_CAMERA, -- Snapshot
  HCONS_MAP_KEY 0x069 KEY_RED,
  HCONS_MAP_KEY 0x06a KEY_GREEN,
  HCONS_MAP_KEY 0x06b KEY_BLUE,
  HCONS_MAP_KEY 0x06c KEY_YELLOW,
  HCONS_MAP_KEY 0x06d KEY_ASPECT_RATIO,
  HCONS_MAP_KEY 0x06f KEY_BRIGHTNESSUP,
  HCONS_MAP_KEY 0x070 KEY_BRIGHTNESSDOWN,
  HCONS_MAP_KEY 0x072 KEY_BRIGHTNESS_TOGGLE,
  HCONS_MAP_KEY 0x073 KEY_BRIGHTNESS_MIN,
  HCONS_MAP_KEY 0x074 KEY_BRIGHTNESS_MAX,
  HCONS_MAP_KEY 0x075 KEY_BRIGHTNESS_AUTO,
  HCONS_MAP_KEY 0x079 KEY_KBDILLUMUP,
  HCONS_MAP_KEY 0x07a KEY_KBDILLUMDOWN,
  HCONS_MAP_KEY 0x07c KEY_KBDILLUMTOGGLE,
  HCONS_MAP_KEY 0x082 KEY_VIDEO_NEXT,
  HCONS_MAP_KEY 0x083 KEY_LAST,
  HCONS_MAP_KEY 0x084 KEY_ENTER,
  HCONS_MAP_KEY 0x088 KEY_PC,
  HCONS_MAP_KEY 0x089 KEY_TV,
  HCONS_MAP_KEY 0x08a KEY_WWW,
  HCONS_MAP_KEY 0x08b KEY_DVD,
  HCONS_MAP_KEY 0x08c KEY_PHONE,
  HCONS_MAP_KEY 0x08d KEY_PROGRAM,
  HCONS_MAP_KEY 0x08e KEY_VIDEOPHONE,
  HCONS_MAP_KEY 0x08f KEY_GAMES,
  HCONS_MAP_KEY 0x090 KEY_MEMO,
  HCONS_MAP_KEY 0x091 KEY_CD,
  HCONS_MAP_KEY 0x092 KEY_VCR,
  HCONS_MAP_KEY 0x093 KEY_TUNER,
  HCONS_MAP_KEY 0x094 KEY_EXIT,
  HCONS_MAP_KEY 0x095 KEY_HELP,
  HCONS_MAP_KEY 0x096 KEY_TAPE,
  HCONS_MAP_KEY 0x097 KEY_TV2,
  HCONS_MAP_KEY 0x098 KEY_SAT,
  HCONS_MAP_KEY 0x09a KEY_PVR,
  HCONS_MAP_KEY 0x09c KEY_CHANNELUP,
  HCONS_MAP_KEY 0x09d KEY_CHANNELDOWN,
  HCONS_MAP_KEY 0x0a0 KEY_VCR2,
  HCONS_MAP_KEY 0x0b0 KEY_PLAY,
  HCONS_MAP_KEY 0x0b1 KEY_PAUSE,
  HCONS_MAP_KEY 0x0b2 KEY_RECORD,
  HCONS_MAP_KEY 0x0b3 KEY_FASTFORWARD,
  HCONS_MAP_KEY 0x0b4 KEY_REWIND,
  HCONS_MAP_KEY 0x0b5 KEY_NEXTSONG,
  HCONS_MAP_KEY 0x0b6 KEY_PREVIOUSSONG,
  HCONS_MAP_KEY 0x0b7 KEY_STOPCD,
  HCONS_MAP_KEY 0x0b8 KEY_EJECTCD,
  HCONS_MAP_KEY 0x0bc KEY_MEDIA_REPEAT,
  HCONS_MAP_KEY 0x0b9 KEY_SHUFFLE,
  HCONS_MAP_KEY 0x0bf KEY_SLOW,
  HCONS_MAP_KEY 0x0cd KEY_PLAYPAUSE,
  HCONS_MAP_KEY 0x0cf KEY_VOICECOMMAND,
  HCONS_MAP_ABS 0x0e0 ABS_VOLUME,
  HCONS_MAP_REL_CB 0x0e0 hcons_rel_volume_cb,
  HCONS_MAP_KEY 0x0e2 KEY_MUTE,
  HCONS_MAP_KEY 0x0e5 KEY_BASSBOOST,
  HCONS_MAP_KEY 0x0e9 KEY_VOLUMEUP,
  HCONS_MAP_KEY 0x0ea KEY_VOLUMEDOWN,
  HCONS_MAP_KEY 0x0f5 KEY_SLOW,
  HCONS_MAP_KEY 0x181 KEY_BUTTONCONFIG,
  HCONS_MAP_KEY 0x182 KEY_BOOKMARKS,
  HCONS_MAP_KEY 0x183 KEY_CONFIG,
  HCONS_MAP_KEY 0x184 KEY_WORDPROCESSOR,
  HCONS_MAP_KEY 0x185 KEY_EDITOR,
  HCONS_MAP_KEY 0x186 KEY_SPREADSHEET,
  HCONS_MAP_KEY 0x187 KEY_GRAPHICSEDITOR,
  HCONS_MAP_KEY 0x188 KEY_PRESENTATION,
  HCONS_MAP_KEY 0x189 KEY_DATABASE,
  HCONS_MAP_KEY 0x18a KEY_MAIL,
  HCONS_MAP_KEY 0x18b KEY_NEWS,
  HCONS_MAP_KEY 0x18c KEY_VOICEMAIL,
  HCONS_MAP_KEY 0x18d KEY_ADDRESSBOOK,
  HCONS_MAP_KEY 0x18e KEY_CALENDAR,
  HCONS_MAP_KEY 0x18f KEY_TASKMANAGER,
  HCONS_MAP_KEY 0x190 KEY_JOURNAL,
  HCONS_MAP_KEY 0x191 KEY_FINANCE,
  HCONS_MAP_KEY 0x192 KEY_CALC,
  HCONS_MAP_KEY 0x193 KEY_PLAYER,
  HCONS_MAP_KEY 0x194 KEY_FILE,
  HCONS_MAP_KEY 0x196 KEY_WWW,
  HCONS_MAP_KEY 0x199 KEY_CHAT,
  HCONS_MAP_KEY 0x19c KEY_LOGOFF,
  HCONS_MAP_KEY 0x19e KEY_COFFEE,
  HCONS_MAP_KEY 0x19f KEY_CONTROLPANEL,
  HCONS_MAP_KEY 0x1a2 KEY_APPSELECT,
  HCONS_MAP_KEY 0x1a3 KEY_NEXT,
  HCONS_MAP_KEY 0x1a4 KEY_PREVIOUS,
  HCONS_MAP_KEY 0x1a6 KEY_HELP,
  HCONS_MAP_KEY 0x1a7 KEY_DOCUMENTS,
  HCONS_MAP_KEY 0x1ab KEY_SPELLCHECK,
  HCONS_MAP_KEY 0x1ae KEY_KEYBOARD,
  HCONS_MAP_KEY 0x1b1 KEY_SCREENSAVER,
  HCONS_MAP_KEY 0x1b4 KEY_FILE,
  HCONS_MAP_KEY 0x1b6 KEY_IMAGES,
  HCONS_MAP_KEY 0x1b7 KEY_AUDIO,
  HCONS_MAP_KEY 0x1b8 KEY_VIDEO,
  HCONS_MAP_KEY 0x1bc KEY_MESSENGER,
  HCONS_MAP_KEY 0x1bd KEY_INFO,
  HCONS_MAP_KEY 0x1cb KEY_ASSISTANT,
  HCONS_MAP_KEY 0x201 KEY_NEW,
  HCONS_MAP_KEY 0x202 KEY_OPEN,
  HCONS_MAP_KEY 0x203 KEY_CLOSE,
  HCONS_MAP_KEY 0x204 KEY_EXIT,
  HCONS_MAP_KEY 0x207 KEY_SAVE,
  HCONS_MAP_KEY 0x208 KEY_PRINT,
  HCONS_MAP_KEY 0x209 KEY_PROPS,
  HCONS_MAP_KEY 0x21a KEY_UNDO,
  HCONS_MAP_KEY 0x21b KEY_COPY,
  HCONS_MAP_KEY 0x21c KEY_CUT,
  HCONS_MAP_KEY 0x21d KEY_PASTE,
  HCONS_MAP_KEY 0x21f KEY_FIND,
  HCONS_MAP_KEY 0x221 KEY_SEARCH,
  HCONS_MAP_KEY 0x222 KEY_GOTO,
  HCONS_MAP_KEY 0x223 KEY_HOMEPAGE,
  HCONS_MAP_KEY 0x224 KEY_BACK,
  HCONS_MAP_KEY 0x225 KEY_FORWARD,
  HCONS_MAP_KEY 0x226 KEY_STOP,
  HCONS_MAP_KEY 0x227 KEY_REFRESH,
  HCONS_MAP_KEY 0x22a KEY_BOOKMARKS,
  HCONS_MAP_KEY 0x22d KEY_ZOOMIN,
  HCONS_MAP_KEY 0x22e KEY_ZOOMOUT,
  HCONS_MAP_KEY 0x22f KEY_ZOOMRESET,
  HCONS_MAP_KEY 0x232 KEY_FULL_SCREEN,
  HCONS_MAP_KEY 0x233 KEY_SCROLLUP,
  HCONS_MAP_KEY 0x234 KEY_SCROLLDOWN,
  HCONS_MAP_REL 0x238 REL_HWHEEL, -- AC Pan
  HCONS_MAP_KEY 0x23d KEY_EDIT,
  HCONS_MAP_KEY 0x25f KEY_CANCEL,
  HCONS_MAP_KEY 0x269 KEY_INSERT,
  HCONS_MAP_KEY 0x26a KEY_DELETE,
  HCONS_MAP_KEY 0x279 KEY_REDO,
  HCONS_MAP_KEY 0x289 KEY_REPLY,
  HCONS_MAP_KEY 0x28b KEY_FORWARDMAIL,
  HCONS_MAP_KEY 0x28c KEY_SEND,
  HCONS_MAP_KEY 0x29d KEY_KBD_LAYOUT_NEXT,
  HCONS_MAP_KEY 0x2c7 KEY_KBDINPUTASSIST_PREV,
  HCONS_MAP_KEY 0x2c8 KEY_KBDINPUTASSIST_NEXT,
  HCONS_MAP_KEY 0x2c9 KEY_KBDINPUTASSIST_PREVGROUP,
  HCONS_MAP_KEY 0x2ca KEY_KBDINPUTASSIST_NEXTGROUP,
  HCONS_MAP_KEY 0x2cb KEY_KBDINPUTASSIST_ACCEPT,
  HCONS_MAP_KEY 0x2cc KEY_KBDINPUTASSIST_CANCEL,
  HCONS_MAP_KEY 0x29f KEY_SCALE
]

/-- The usages of the table entries, in table order. -/
def hcons_map_usages : List Nat := hcons_map.map hmap_item.usage

/-! ## Observations -/

/-- The events an invocation handed to the device: those of `after` that
follow the events `before` already held. -/
def emitted (before after : evdev_dev) : List input_event :=
  after.events.drop before.events.length

/-- A press of the key `code`. -/
def key_press (code : Nat) : input_event := { type := EV_KEY, code := code, value := 1 }

/-- A release of the key `code`. -/
def key_release (code : Nat) : input_event := { type := EV_KEY, code := code, value := 0 }

/-- The spec's pulse train: `n` repetitions of a press immediately followed by
a release of the key `code`. -/
def key_pulses (code : Nat) : Nat → List input_event
  | 0 => []
  | n + 1 => key_press code :: key_release code :: key_pulses code n

/-- The key the spec chooses for a nonzero delta: up when positive, down
otherwise. -/
def volume_key (data : Int) : Nat := if data > 0 then KEY_VOLUMEUP else KEY_VOLUMEDOWN

/-- The device after the attaching invocation on a fresh device followed by
one running invocation per raw value of `reports`, in order. -/
def hcons_session (ctx : Int) (reports : List Int) : evdev_dev :=
  reports.foldl (fun evdev raw => (hcons_rel_volume_cb HMAP_CB_IS_RUNNING evdev raw).2)
    (hcons_rel_volume_cb HMAP_CB_IS_ATTACHING evdev_alloc ctx).2

/-! ## Lemmas on machine integers -/

theorem int32_t_of_range (x : Int) (hlo : -2147483648 ≤ x) (hhi : x < 2147483648) :
    int32_t x = x := by
  unfold int32_t
  omega

theorem int32_t_range (x : Int) : -2147483648 ≤ int32_t x ∧ int32_t x < 2147483648 := by
  unfold int32_t
  omega

theorem abs_toNat_of_gt_min (x : Int) (hlo : -2147483648 < x) (hhi : x < 2147483648) :
    (abs x).toNat = x.natAbs := by
  unfold abs int32_t
  split <;> omega

theorem abs_int_min : abs (-2147483648) = -2147483648 := by
  decide

/-! ## Lemmas on the loop -/

theorem hcons_rel_volume_for_events (code : Nat) (n : Nat) (evdev : evdev_dev) :
    (hcons_rel_volume_for code n evdev).events = evdev.events ++ key_pulses code n := by
  induction n generalizing evdev with
  | zero => simp [hcons_rel_volume_for, key_pulses]
  | succ n ih =>
    simp [hcons_rel_volume_for, ih, key_pulses, evdev_push_key, evdev_push_event,
      key_press, key_release]

theorem hcons_rel_volume_for_flags (code : Nat) (n : Nat) (evdev : evdev_dev) :
    (hcons_rel_volume_for code n evdev).ev_type_flags = evdev.ev_type_flags ∧
    (hcons_rel_volume_for code n evdev).ev_key_flags = evdev.ev_key_flags ∧
    (hcons_rel_volume_for code n evdev).ev_rel_flags = evdev.ev_rel_flags ∧
    (hcons_rel_volume_for code n evdev).ev_abs_flags = evdev.ev_abs_flags := by
  induction n generalizing evdev with
  | zero => simp [hcons_rel_volume_for]
  | succ n ih =>
    simp [hcons_rel_volume_for, ih, evdev_push_key, evdev_push_event]

theorem hcons_rel_volume_for_eq (code : Nat) (n : Nat) (evdev : evdev_dev) :
    hcons_rel_volume_for code n evdev =
      { evdev with events := evdev.events ++ key_pulses code n } := by
  have he := hcons_rel_volume_for_events code n evdev
  obtain ⟨h1, h2, h3, h4⟩ := hcons_rel_volume_for_flags code n evdev
  cases h : hcons_rel_volume_for code n evdev
  simp_all

/-! ## Lemmas on pulse trains -/

theorem key_pulses_length (code n : Nat) : (key_pulses code n).length = 2 * n := by
  induction n with
  | zero => rfl
  | succ n ih => simp [key_pulses, ih]; omega

theorem key_pulses_count_press (code n : Nat) :
    (key_pulses code n).countP (fun e => e.value = 1) = n := by
  induction n with
  | zero => rfl
  | succ n ih => simp [key_pulses, ih, key_press, key_release, List.countP_cons]

theorem key_pulses_count_release (code n : Nat) :
    (key_pulses code n).countP (fun e => e.value = 0) = n := by
  induction n with
  | zero => rfl
  | succ n ih => simp [key_pulses, ih, key_press, key_release, List.countP_cons]

theorem key_pulses_mem (code n : Nat) (e : input_event) (h : e ∈ key_pulses code n) :
    e = key_press code ∨ e = key_release code := by
  induction n with
  | zero => simp [key_pulses] at h
  | succ n ih =>
    simp only [key_pulses, List.mem_cons] at h
    rcases h with h | h | h
    · exact Or.inl h
    · exact Or.inr h
    · exact ih h

theorem key_pulses_get (code : Nat) (n i : Nat) (e : input_event)
    (h : (key_pulses code n)[i]? = some e) :
    (i % 2 = 0 → e = key_press code ∧ (key_pulses code n)[i + 1]? = some (key_release code)) ∧
    (i % 2 = 1 → e = key_release code) := by
  induction n generalizing i with
  | zero => simp [key_pulses] at h
  | succ n ih =>
    match i with
    | 0 =>
      simp [key_pulses] at h
      simp [key_pulses, h]
    | 1 =>
      simp [key_pulses] at h
      simp [h]
    | j + 2 =>
      simp only [key_pulses, List.getElem?_cons_succ] at h
      have := ih j h
      simp only [key_pulses, List.getElem?_cons_succ]
      constructor
      · intro hj
        exact this.1 (by omega)
      · intro hj
        exact this.2 (by omega)

/-! ## Lemmas on the callback -/

theorem emitted_append (evdev : evdev_dev) (l : List input_event) :
    emitted evdev { evdev with events := evdev.events ++ l } = l := by
  simp [emitted]

theorem emitted_self (evdev : evdev_dev) : emitted evdev evdev = [] := by
  simp [emitted]

theorem running_zero (evdev : evdev_dev) (ctx : Int) (h : int32_t ctx = 0) :
    hcons_rel_volume_cb HMAP_CB_IS_RUNNING evdev ctx = (ENOMSG, evdev) := by
  simp [hcons_rel_volume_cb, h]

theorem running_nonzero (evdev : evdev_dev) (ctx : Int) (h : int32_t ctx ≠ 0) :
    hcons_rel_volume_cb HMAP_CB_IS_RUNNING evdev ctx =
      (0, { evdev with events := evdev.events ++
              key_pulses (volume_key (int32_t ctx)) (abs (int32_t ctx)).toNat }) := by
  simp [hcons_rel_volume_cb, h, hcons_rel_volume_for_eq, volume_key]

theorem running_emitted (evdev : evdev_dev) (ctx : Int) :
    ∃ n, emitted evdev (hcons_rel_volume_cb HMAP_CB_IS_RUNNING evdev ctx).2 =
      key_pulses (volume_key (int32_t ctx)) n := by
  by_cases h : int32_t ctx = 0
  · exact ⟨0, by rw [running_zero evdev ctx h]; simp [emitted_self, key_pulses]⟩
  · exact ⟨_, by rw [running_nonzero evdev ctx h]; exact emitted_append _ _⟩

theorem running_flags (evdev : evdev_dev) (ctx : Int) :
    (hcons_rel_volume_cb HMAP_CB_IS_RUNNING evdev ctx).2.ev_type_flags = evdev.ev_type_flags ∧
    (hcons_rel_volume_cb HMAP_CB_IS_RUNNING evdev ctx).2.ev_key_flags = evdev.ev_key_flags ∧
    (hcons_rel_volume_cb HMAP_CB_IS_RUNNING evdev ctx).2.ev_rel_flags = evdev.ev_rel_flags ∧
    (hcons_rel_volume_cb HMAP_CB_IS_RUNNING evdev ctx).2.ev_abs_flags = evdev.ev_abs_flags := by
  by_cases h : int32_t ctx = 0
  · rw [running_zero evdev ctx h]; simp
  · rw [running_nonzero evdev ctx h]; simp

theorem running_events_mem (evdev : evdev_dev) (ctx : Int) (e : input_event)
    (h : e ∈ (hcons_rel_volume_cb HMAP_CB_IS_RUNNING evdev ctx).2.events) :
    e ∈ evdev.events ∨
      (e.type = EV_KEY ∧ (e.code = KEY_VOLUMEUP ∨ e.code = KEY_VOLUMEDOWN)) := by
  by_cases h0 : int32_t ctx = 0
  · rw [running_zero evdev ctx h0] at h; exact Or.inl h
  · rw [running_nonzero evdev ctx h0] at h
    simp only [List.mem_append] at h
    rcases h with h | h
    · exact Or.inl h
    · right
      have hk : volume_key (int32_t ctx) = KEY_VOLUMEUP ∨
          volume_key (int32_t ctx) = KEY_VOLUMEDOWN := by
        unfold volume_key; split <;> simp
      rcases key_pulses_mem _ _ _ h with rfl | rfl <;>
        simpa [key_press, key_release] using hk

/-! ## Pulse count of a running invocation -/

/-- For every delta of the `int32_t` range other than the most negative one, a
running invocation emits `|data|` presses and `|data|` releases. -/
theorem running_pulse_count (evdev : evdev_dev) (data : Int)
    (hlo : -2147483648 < data) (hhi : data < 2147483648) :
    (emitted evdev (hcons_rel_volume_cb HMAP_CB_IS_RUNNING evdev data).2).countP
        (fun e => e.value = 1) = data.natAbs ∧
    (emitted evdev (hcons_rel_volume_cb HMAP_CB_IS_RUNNING evdev data).2).countP
        (fun e => e.value = 0) = data.natAbs := by
  have hd : int32_t data = data := int32_t_of_range data (by omega) hhi
  by_cases h0 : data = 0
  · subst h0
    rw [running_zero evdev 0 hd, emitted_self]
    simp
  · have hne : int32_t data ≠ 0 := by rw [hd]; exact h0
    rw [running_nonzero evdev data hne, emitted_append, hd,
      abs_toNat_of_gt_min data hlo hhi]
    exact ⟨key_pulses_count_press _ _, key_pulses_count_release _ _⟩

/-- C1, at the most negative delta: a running invocation with `data = -2^31`
reports success and emits no event at all, neither a press nor a release,
whereas the magnitude of the delta is `2^31`. -/
theorem running_int_min_emits_nothing :
    int32_t (-2147483648) = -2147483648 ∧
    hcons_rel_volume_cb HMAP_CB_IS_RUNNING evdev_alloc (-2147483648) = (0, evdev_alloc) ∧
    (emitted evdev_alloc
      (hcons_rel_volume_cb HMAP_CB_IS_RUNNING evdev_alloc (-2147483648)).2).countP
        (fun e => e.value = 1) = 0 ∧
    (emitted evdev_alloc
      (hcons_rel_volume_cb HMAP_CB_IS_RUNNING evdev_alloc (-2147483648)).2).countP
        (fun e => e.value = 0) = 0 ∧
    Int.natAbs (-2147483648) = 2147483648 := by
  refine ⟨by decide, rfl, by decide, by decide, by decide⟩

/-- C2: for every nonzero delta `data` of the `int32_t` range, every event a
running invocation emits is a key event with the code chosen by the sign of
`data`: `KEY_VOLUMEUP` when `data > 0`, `KEY_VOLUMEDOWN` when `data < 0`. -/
theorem running_code_by_sign (evdev : evdev_dev) (data : Int)
    (hlo : -2147483648 ≤ data) (hhi : data < 2147483648) (hne : data ≠ 0)
    (e : input_event)
    (he : e ∈ emitted evdev (hcons_rel_volume_cb HMAP_CB_IS_RUNNING evdev data).2) :
    e.type = EV_KEY ∧
    (0 < data → e.code = KEY_VOLUMEUP) ∧
    (data < 0 → e.code = KEY_VOLUMEDOWN) := by
  have hd : int32_t data = data := int32_t_of_range data hlo hhi
  have hne32 : int32_t data ≠ 0 := by rw [hd]; exact hne
  rw [running_nonzero evdev data hne32, emitted_append, hd] at he
  have hcode : e.type = EV_KEY ∧ e.code = volume_key data := by
    rcases key_pulses_mem _ _ _ he with rfl | rfl <;> simp [key_press, key_release]
  refine ⟨hcode.1, ?_, ?_⟩
  · intro hpos
    rw [hcode.2]
    simp [volume_key, hpos]
  · intro hneg
    rw [hcode.2]
    have : ¬ data > 0 := by omega
    simp [volume_key, this]

theorem running_code_by_sign_witness :
    (-2147483648 : Int) ≤ -2 ∧ (-2 : Int) < 2147483648 ∧ (-2 : Int) ≠ 0 ∧
    key_press KEY_VOLUMEDOWN ∈
      emitted evdev_alloc (hcons_rel_volume_cb HMAP_CB_IS_RUNNING evdev_alloc (-2)).2 ∧
    ((key_press KEY_VOLUMEDOWN).type = EV_KEY ∧
      ((0 : Int) < -2 → (key_press KEY_VOLUMEDOWN).code = KEY_VOLUMEUP) ∧
      ((-2 : Int) < 0 → (key_press KEY_VOLUMEDOWN).code = KEY_VOLUMEDOWN)) :=
  ⟨by decide, by decide, by decide, by decide,
    running_code_by_sign evdev_alloc (-2) (by decide) (by decide) (by decide)
      (key_press KEY_VOLUMEDOWN) (by decide)⟩

/-- C3: for every raw value, the events a running invocation emits are a
concatenation of (press, release) pairs of one key: the sequence has even
length, and an event at an even position is a press (value 1) that is
immediately followed by a release (value 0) of the same key, while an event at
an odd position is a release. -/
theorem running_press_release_pairs (evdev : evdev_dev) (ctx : Int) :
    (∃ code n, emitted evdev (hcons_rel_volume_cb HMAP_CB_IS_RUNNING evdev ctx).2 =
      key_pulses code n) ∧
    (emitted evdev (hcons_rel_volume_cb HMAP_CB_IS_RUNNING evdev ctx).2).length % 2 = 0 ∧
    ∀ (i : Nat) (e : input_event),
      (emitted evdev (hcons_rel_volume_cb HMAP_CB_IS_RUNNING evdev ctx).2)[i]? = some e →
      e.type = EV_KEY ∧
      (i % 2 = 0 → e.value = 1 ∧
        (emitted evdev (hcons_rel_volume_cb HMAP_CB_IS_RUNNING evdev ctx).2)[i + 1]? =
          some { type := EV_KEY, code := e.code, value := 0 }) ∧
      (i % 2 = 1 → e.value = 0) := by
  obtain ⟨n, hn⟩ := running_emitted evdev ctx
  rw [hn]
  refine ⟨⟨_, n, rfl⟩, by rw [key_pulses_length]; omega, ?_⟩
  intro i e hie
  have hget := key_pulses_get _ n i e hie
  have hmem : e ∈ key_pulses (volume_key (int32_t ctx)) n := List.getElem?_mem hie
  refine ⟨?_, ?_, ?_⟩
  · rcases key_pulses_mem _ _ _ hmem with rfl | rfl <;> rfl
  · intro hi
    obtain ⟨he, hnext⟩ := hget.1 hi
    subst he
    exact ⟨rfl, hnext⟩
  · intro hi
    rw [hget.2 hi]
    rfl

theorem running_press_release_pairs_witness :
    (emitted evdev_alloc (hcons_rel_volume_cb HMAP_CB_IS_RUNNING evdev_alloc 3).2)[0]? =
      some (key_press KEY_VOLUMEUP) ∧
    0 % 2 = 0 ∧
    ((key_press KEY_VOLUMEUP).value = 1 ∧
      (emitted evdev_alloc (hcons_rel_volume_cb HMAP_CB_IS_RUNNING evdev_alloc 3).2)[0 + 1]? =
        some { type := EV_KEY, code := (key_press KEY_VOLUMEUP).code, value := 0 }) :=
  ⟨by decide, by decide,
    ((running_press_release_pairs evdev_alloc 3).2.2 0 (key_press KEY_VOLUMEUP)
      (by decide)).2.1 (by decide)⟩

/-- C4: for every delta `data` of the `int32_t` range, a running invocation
returns `ENOMSG` if and only if `data = 0`; when `data = 0` it leaves the
device as it was and emits no event; for every nonzero `data` it returns 0. -/
theorem running_status (evdev : evdev_dev) (data : Int)
    (hlo : -2147483648 ≤ data) (hhi : data < 2147483648) :
    ((hcons_rel_volume_cb HMAP_CB_IS_RUNNING evdev data).1 = ENOMSG ↔ data = 0) ∧
    (data = 0 →
      (hcons_rel_volume_cb HMAP_CB_IS_RUNNING evdev data).2 = evdev ∧
      emitted evdev (hcons_rel_volume_cb HMAP_CB_IS_RUNNING evdev data).2 = []) ∧
    (data ≠ 0 → (hcons_rel_volume_cb HMAP_CB_IS_RUNNING evdev data).1 = 0) := by
  have hd : int32_t data = data := int32_t_of_range data hlo hhi
  by_cases h0 : data = 0
  · have h32 : int32_t data = 0 := by rw [hd]; exact h0
    rw [running_zero evdev data h32]
    simp [h0, emitted_self]
  · have hne : int32_t data ≠ 0 := by rw [hd]; exact h0
    rw [running_nonzero evdev data hne]
    simp [h0, ENOMSG]

theorem running_status_witness :
    (-2147483648 : Int) ≤ 0 ∧ (0 : Int) < 2147483648 ∧
    (((hcons_rel_volume_cb HMAP_CB_IS_RUNNING evdev_alloc 0).1 = ENOMSG ↔ (0 : Int) = 0) ∧
    ((0 : Int) = 0 →
      (hcons_rel_volume_cb HMAP_CB_IS_RUNNING evdev_alloc 0).2 = evdev_alloc ∧
      emitted evdev_alloc (hcons_rel_volume_cb HMAP_CB_IS_RUNNING evdev_alloc 0).2 = []) ∧
    ((0 : Int) ≠ 0 → (hcons_rel_volume_cb HMAP_CB_IS_RUNNING evdev_alloc 0).1 = 0)) :=
  ⟨by decide, by decide, running_status evdev_alloc 0 (by decide) (by decide)⟩

/-- C5: whatever the value argument, an attaching invocation returns 0 and
changes the device in exactly this way: `EV_KEY` joins the supported event
types, `KEY_VOLUMEUP` and `KEY_VOLUMEDOWN` join the supported key codes, and
nothing else changes; on a fresh device the supported event types are then
exactly `EV_KEY` and the supported key codes exactly the two volume keys. -/
theorem attaching_declares (evdev : evdev_dev) (ctx : Int) :
    hcons_rel_volume_cb HMAP_CB_IS_ATTACHING evdev ctx =
      (0, { evdev with
              ev_type_flags := evdev.ev_type_flags ∪ {EV_KEY},
              ev_key_flags := evdev.ev_key_flags ∪ {KEY_VOLUMEUP, KEY_VOLUMEDOWN} }) ∧
    hcons_rel_volume_cb HMAP_CB_IS_ATTACHING evdev_alloc ctx =
      (0, { ev_type_flags := {EV_KEY},
            ev_key_flags := {KEY_VOLUMEUP, KEY_VOLUMEDOWN},
            ev_rel_flags := ∅, ev_abs_flags := ∅, events := [] }) := by
  constructor
  · simp only [hcons_rel_volume_cb, evdev_support_event, evdev_support_key]
    congr 2
    · ext x; simp; tauto
    · ext x; simp; tauto
  · simp only [hcons_rel_volume_cb, evdev_support_event, evdev_support_key, evdev_alloc]
    congr 2
    ext x; simp; tauto

/-! ## Sessions -/

theorem hcons_session_flags (ctx : Int) (reports : List Int) :
    (hcons_session ctx reports).ev_type_flags =
      (hcons_rel_volume_cb HMAP_CB_IS_ATTACHING evdev_alloc ctx).2.ev_type_flags ∧
    (hcons_session ctx reports).ev_key_flags =
      (hcons_rel_volume_cb HMAP_CB_IS_ATTACHING evdev_alloc ctx).2.ev_key_flags := by
  unfold hcons_session
  generalize (hcons_rel_volume_cb HMAP_CB_IS_ATTACHING evdev_alloc ctx).2 = start
  induction reports generalizing start with
  | nil => simp
  | cons raw rest ih =>
    simp only [List.foldl_cons]
    rw [(ih _).1, (ih _).2]
    exact ⟨(running_flags start raw).1, (running_flags start raw).2.1⟩

theorem foldl_running_events_mem (start : evdev_dev) (reports : List Int) (e : input_event)
    (h : e ∈ (reports.foldl
      (fun evdev raw => (hcons_rel_volume_cb HMAP_CB_IS_RUNNING evdev raw).2) start).events) :
    e ∈ start.events ∨
      (e.type = EV_KEY ∧ (e.code = KEY_VOLUMEUP ∨ e.code = KEY_VOLUMEDOWN)) := by
  induction reports generalizing start with
  | nil => exact Or.inl h
  | cons raw rest ih =>
    simp only [List.foldl_cons] at h
    rcases ih _ h with h1 | h1
    · exact running_events_mem start raw e h1
    · exact Or.inr h1

/-- C6: on a device that starts with no capability, after one attaching
invocation, every event the device holds after any sequence of running
invocations is a key event whose event type and key code are among those the
attaching invocation declared (and which the device still supports). -/
theorem session_events_declared (ctx : Int) (reports : List Int) (e : input_event)
    (h : e ∈ (hcons_session ctx reports).events) :
    e.type = EV_KEY ∧
    e.type ∈ (hcons_rel_volume_cb HMAP_CB_IS_ATTACHING evdev_alloc ctx).2.ev_type_flags ∧
    e.code ∈ (hcons_rel_volume_cb HMAP_CB_IS_ATTACHING evdev_alloc ctx).2.ev_key_flags ∧
    e.type ∈ (hcons_session ctx reports).ev_type_flags ∧
    e.code ∈ (hcons_session ctx reports).ev_key_flags := by
  rw [(hcons_session_flags ctx reports).1, (hcons_session_flags ctx reports).2]
  have hmem := foldl_running_events_mem _ reports e h
  have hstart : (hcons_rel_volume_cb HMAP_CB_IS_ATTACHING evdev_alloc ctx).2.events = [] := rfl
  rw [hstart] at hmem
  rcases hmem with hmem | ⟨ht, hc⟩
  · simp at hmem
  · have htype : e.type ∈
        (hcons_rel_volume_cb HMAP_CB_IS_ATTACHING evdev_alloc ctx).2.ev_type_flags := by
      simp [hcons_rel_volume_cb, evdev_support_event, evdev_support_key, ht]
    have hcode : e.code ∈
        (hcons_rel_volume_cb HMAP_CB_IS_ATTACHING evdev_alloc ctx).2.ev_key_flags := by
      rcases hc with hc | hc <;>
        simp [hcons_rel_volume_cb, evdev_support_event, evdev_support_key, hc]
    exact ⟨ht, htype, hcode, htype, hcode⟩

theorem session_events_declared_witness :
    key_release KEY_VOLUMEDOWN ∈ (hcons_session 0 [3, 0, -2]).events ∧
    ((key_release KEY_VOLUMEDOWN).type = EV_KEY ∧
    (key_release KEY_VOLUMEDOWN).type ∈
      (hcons_rel_volume_cb HMAP_CB_IS_ATTACHING evdev_alloc 0).2.ev_type_flags ∧
    (key_release KEY_VOLUMEDOWN).code ∈
      (hcons_rel_volume_cb HMAP_CB_IS_ATTACHING evdev_alloc 0).2.ev_key_flags ∧
    (key_release KEY_VOLUMEDOWN).type ∈ (hcons_session 0 [3, 0, -2]).ev_type_flags ∧
    (key_release KEY_VOLUMEDOWN).code ∈ (hcons_session 0 [3, 0, -2]).ev_key_flags) :=
  ⟨by decide, session_events_declared 0 [3, 0, -2] (key_release KEY_VOLUMEDOWN) (by decide)⟩

/-- C7: for every device and every value, an attaching invocation leaves the
events of the device untouched, so it emits none, and a running invocation
leaves every set of declared capabilities untouched: all it does to the device
is append the events it emits. -/
theorem phase_separation (evdev : evdev_dev) (ctx : Int) :
    (hcons_rel_volume_cb HMAP_CB_IS_ATTACHING evdev ctx).2.events = evdev.events ∧
    emitted evdev (hcons_rel_volume_cb HMAP_CB_IS_ATTACHING evdev ctx).2 = [] ∧
    (hcons_rel_volume_cb HMAP_CB_IS_RUNNING evdev ctx).2.ev_type_flags = evdev.ev_type_flags ∧
    (hcons_rel_volume_cb HMAP_CB_IS_RUNNING evdev ctx).2.ev_key_flags = evdev.ev_key_flags ∧
    (hcons_rel_volume_cb HMAP_CB_IS_RUNNING evdev ctx).2.ev_rel_flags = evdev.ev_rel_flags ∧
    (hcons_rel_volume_cb HMAP_CB_IS_RUNNING evdev ctx).2.ev_abs_flags = evdev.ev_abs_flags ∧
    (hcons_rel_volume_cb HMAP_CB_IS_RUNNING evdev ctx).2 =
      { evdev with
          events := (evdev.events ++
            emitted evdev (hcons_rel_volume_cb HMAP_CB_IS_RUNNING evdev ctx).2) } := by
  refine ⟨rfl, ?_, (running_flags evdev ctx).1, (running_flags evdev ctx).2.1,
    (running_flags evdev ctx).2.2.1, (running_flags evdev ctx).2.2.2, ?_⟩
  · simp [emitted, hcons_rel_volume_cb, evdev_support_event, evdev_support_key]
  · by_cases h0 : int32_t ctx = 0
    · rw [running_zero evdev ctx h0]
      simp [emitted_self]
    · rw [running_nonzero evdev ctx h0, emitted_append]

/-- C8: for every device, attaching twice in a row leaves the device, and with
it the sets of supported event types and supported key codes, exactly as
attaching once does; both invocations return 0. -/
theorem attaching_idempotent (evdev : evdev_dev) (ctx₁ ctx₂ : Int) :
    hcons_rel_volume_cb HMAP_CB_IS_ATTACHING
        (hcons_rel_volume_cb HMAP_CB_IS_ATTACHING evdev ctx₁).2 ctx₂ =
      hcons_rel_volume_cb HMAP_CB_IS_ATTACHING evdev ctx₁ := by
  simp only [hcons_rel_volume_cb, evdev_support_event, evdev_support_key]
  congr 2
  · simp
  · ext x; simp

/-! ## The table -/

theorem hcons_map_usage_kind_nodup :
    (hcons_map.map fun item => (item.usage, item.kind)).Nodup := by
  set_option maxRecDepth 100000 in decide

theorem hcons_map_usages_repeated :
    ∀ u ∈ hcons_map_usages, 1 < hcons_map_usages.count u → u = 0x0e0 := by
  set_option maxRecDepth 100000 in decide

/-- C9: no two entries of `hcons_map` share both usage and kind; a usage
occurs in more than one entry exactly when it is `0x0e0`; and the entries of
usage `0x0e0` are exactly two, in this order: the absolute rule targeting
`ABS_VOLUME` and the relative callback rule whose callback is
`hcons_rel_volume_cb`. -/
theorem hcons_map_duplicates :
    (hcons_map.map fun item => (item.usage, item.kind)).Nodup ∧
    (∀ u : Nat, 1 < hcons_map_usages.count u ↔ u = 0x0e0) ∧
    hcons_map.filter (fun item => item.usage = 0x0e0) =
      [{ page := HUP_CONSUMER, usage := 0x0e0, rule := .Absolute ABS_VOLUME },
       { page := HUP_CONSUMER, usage := 0x0e0,
         rule := .RelCallback (some hcons_rel_volume_cb) }] ∧
    (hcons_map.filter (fun item => item.usage = 0x0e0)).map hmap_item.kind =
      [.ABSOLUTE, .CALLBACK] := by
  refine ⟨hcons_map_usage_kind_nodup, ?_, ?_, ?_⟩
  · intro u
    constructor
    · intro h
      have hmem : u ∈ hcons_map_usages := List.count_pos_iff.mp (by omega)
      exact hcons_map_usages_repeated u hmem h
    · rintro rfl
      set_option maxRecDepth 100000 in decide
  · set_option maxRecDepth 100000 in rfl
  · set_option maxRecDepth 100000 in decide

theorem hcons_map_adjacent_check :
    ∀ i, i < 161 → ∀ a ∈ hcons_map_usages[i]?, ∀ b ∈ hcons_map_usages[i + 1]?,
      a ≤ b ∨ (i = 66 ∧ a = 0x0bc ∧ b = 0x0b9) ∨ (i = 159 ∧ a = 0x2cc ∧ b = 0x29f) := by
  set_option maxRecDepth 100000 in decide

/-- C10 as stated fails: entry 66 has usage `0x0bc` and entry 67, the next
one, has the smaller usage `0x0b9`, so the adjacent entries of `hcons_map` are
not all in ascending order of usage. -/
theorem hcons_map_not_ordered :
    ¬ (∀ (i a b : Nat), hcons_map_usages[i]? = some a → hcons_map_usages[i + 1]? = some b →
        a ≤ b) := by
  intro h
  have h66 : hcons_map_usages[66]? = some 0x0bc := by
    set_option maxRecDepth 100000 in decide
  have h67 : hcons_map_usages[66 + 1]? = some 0x0b9 := by
    set_option maxRecDepth 100000 in decide
  have := h 66 0x0bc 0x0b9 h66 h67
  omega

/-- C10, amended: for every pair of adjacent entries of `hcons_map`, the usage
of the earlier entry is at most the usage of the later one, except for the two
pairs at positions 66-67 (usages `0x0bc`, `0x0b9`) and 159-160 (usages
`0x2cc`, `0x29f`). -/
theorem hcons_map_ordered_except_two (i a b : Nat)
    (ha : hcons_map_usages[i]? = some a) (hb : hcons_map_usages[i + 1]? = some b) :
    a ≤ b ∨ (i = 66 ∧ a = 0x0bc ∧ b = 0x0b9) ∨ (i = 159 ∧ a = 0x2cc ∧ b = 0x29f) := by
  have hi : i < 161 := by
    have hlen : hcons_map_usages.length = 161 := by
      set_option maxRecDepth 100000 in decide
    have := (List.getElem?_eq_some_iff.mp ha).1
    omega
  exact hcons_map_adjacent_check i hi a ha b hb

theorem hcons_map_ordered_except_two_witness :
    hcons_map_usages[0]? = some 0x030 ∧ hcons_map_usages[0 + 1]? = some 0x031 ∧
    (0x030 ≤ 0x031 ∨ (0 = 66 ∧ 0x030 = 0x0bc ∧ 0x031 = 0x0b9) ∨
      (0 = 159 ∧ 0x030 = 0x2cc ∧ 0x031 = 0x29f)) :=
  ⟨by set_option maxRecDepth 100000 in decide,
    by set_option maxRecDepth 100000 in decide,
    hcons_map_ordered_except_two 0 0x030 0x031
      (by set_option maxRecDepth 100000 in decide)
      (by set_option maxRecDepth 100000 in decide)⟩

end Hcons
